import Mathlib

/-!
Verification development for `interval_control_lin.py` (DFN interval control).

The controller code is shallowly embedded: each relevant Python function or
code region becomes a Lean function that returns the ordered trace of external
calls it performs (hardware driver, camera backend, post-processor, logger)
together with its return value.  Timestamps are epoch seconds modelled as
`Int`; durations are `Nat`.  External helpers from the repository that are not
under `src/` (the `dfn_functions` module) are modelled from the spec where
their behaviour decides a claim, and are otherwise abstract parameters.
-/

namespace DFN

deriving instance DecidableEq for Except

/-- Enumeration for cloud detection (src lines 93-95): `CLOUDY = 0`. -/
def CLOUDY : Int := 0

/-- Enumeration for cloud detection (src lines 93-95): `CLEARING = 1`. -/
def CLEARING : Int := 1

/-- Enumeration for cloud detection (src lines 93-95): `CLEAR = 2`. -/
def CLEAR : Int := 2

/-- One external call made by the controller.  Each constructor names the
Python call it stands for: `leo.*` hardware-driver calls, `dfn.*`
post-processor calls, gphoto2 subprocess actions, logger lines, and
`time.sleep`.  `handleCall` marks a call site of `handle_new_image`. -/
inductive Ev where
  | shutterOn
  | shutterOff
  | sleep (secs : Nat)
  | singleImage
  | condOff
  | waitForCameraReady
  | videoOff
  | cameraOff
  | jobJoin
  | serClose
  | renameAllPass
  | thumbAllPass
  | getLatest
  | makeThumb (f : String)
  | writeLastImage (f : String) (pointer : String)
  | popenTether
  | gphotoReset
  | terminateSig
  | killSig
  | handleCall
  | logInfo (s : String)
  | logDebug (s : String)
  | logCritical (s : String)
  | logWarning (s : String)
  deriving DecidableEq

/-- The configuration values read by the embedded code regions
(`config_dict` entries).  Durations are seconds as `Nat` (the source stores
them as strings and converts with `int`); `clearing_quality` is kept as the
string the source compares against `'2'`. -/
structure ConfigDict where
  time_checking_clear : Nat
  time_checking_cloudy : Nat
  time_checking_clearing : Nat
  clearing_quality : String
  last_img_status_file : String
  deriving DecidableEq

/-- The external `dfn_functions` helpers whose results flow through
`handle_new_image`: `rename_RAW` maps a path to its renamed path and
`make_thumb` maps a path to the produced thumbnail path.  They are repository
code not under `src/`, so they stay abstract parameters. -/
structure DfnExt where
  rename_RAW : String → String
  make_thumb : String → String

/-- Python substring membership `needle in haystack` on character lists. -/
def containsChars : List Char → List Char → Bool
  | [], needle => needle.isEmpty
  | h :: t, needle => needle.isPrefixOf (h :: t) || containsChars t needle

/-- Python substring membership `needle in s`. -/
def containsSub (s needle : String) : Bool :=
  containsChars s.data needle.data

/-- Python `s.lower()` on the characters of `s`. -/
def lowerStr (s : String) : String :=
  String.mk (s.data.map Char.toLower)

/-- Python `s.lower().endswith('.jpg')` (src line 714). -/
def endsLowerJpg (s : String) : Bool :=
  ([ '.', 'j', 'p', 'g' ] : List Char).isSuffixOf (lowerStr s).data

/-- Modelled from the spec: `dfn.get_latest_imagefile` is repository code not
under `src/`.  Per section 4.4 the acquisition procedures return "a reference
to the most recently created file (or a not-found indicator if none exists -
must not raise for an empty phase iteration)".  The directory listing is a
list in creation order (oldest first), so the most recently created file is
the last element, and `none` is the not-found indicator. -/
def get_latest_imagefile (dir : List String) : Option String :=
  dir.getLast?

/-- The `interval_time` value used by the acquisition loops (src lines
388-396): the configured clear-sky checking interval, replaced by the fixed
value 180 for a test run. -/
def interval_time (test_time : Nat) (config_dict : ConfigDict) : Nat :=
  if test_time ≠ 0 then 180 else config_dict.time_checking_clear

/-- Embeds `high_acq` (src lines 646-671): log, shutter on, sleep the
interval, shutter off, a rename pass over the directory, a thumbnail pass
over the renamed set, and return of the latest file.  `dirAfter` is the
directory listing (creation order) at the time of the final scan. -/
def high_acq (dirAfter : List String) (it : Nat) :
    List Ev × Option String :=
  ([Ev.logInfo "starting_high_acq_chunk", Ev.shutterOn, Ev.sleep it,
    Ev.shutterOff, Ev.renameAllPass, Ev.thumbAllPass, Ev.getLatest],
   get_latest_imagefile dirAfter)

/-- Embeds `low_acq` (src lines 674-695): a status-specific sleep
(`time_checking_cloudy` for CLOUDY, `time_checking_clearing` for CLEARING,
30 otherwise), one `leo.single_image()` exposure, then the same
rename/thumbnail/return-latest tail as `high_acq`. -/
def low_acq (dirAfter : List String) (cloud_status : Int)
    (config_dict : ConfigDict) : List Ev × Option String :=
  let sleep_time : Nat :=
    if cloud_status = CLOUDY then config_dict.time_checking_cloudy
    else if cloud_status = CLEARING then config_dict.time_checking_clearing
    else 30
  ([Ev.logInfo "starting_low_acq", Ev.sleep sleep_time, Ev.singleImage,
    Ev.renameAllPass, Ev.thumbAllPass, Ev.getLatest],
   get_latest_imagefile dirAfter)

/-- Possible Python exceptions in the embedded regions. -/
inductive PyExc where
  | osError
  | calledProcessError
  | nameError
  deriving DecidableEq

/-- Embeds `clean_up_no_dl` (src lines 757-770): shutter off, condensation
fan off, wait for camera ready, video off, a 10 s buffer drain, camera off,
and the join of the outstanding jobs.  The next statement, `ser.close()`
(line 766), reads the module-level global `ser`: the bare `global ser` at
module scope (line 101) binds nothing, and `ser` is assigned only as a local
of `main_function` (line 160), so the read raises `NameError`.  The serial
channel is therefore never closed here, and the stream flushes, the logging
shutdown and the `return False` of lines 767-770 are unreachable: the
function ends in the propagating exception. -/
def clean_up_no_dl (job_count : Nat) : List Ev × Except PyExc Bool :=
  ([Ev.shutterOff, Ev.condOff, Ev.waitForCameraReady, Ev.videoOff,
    Ev.sleep 10, Ev.cameraOff]
   ++ List.replicate job_count Ev.jobJoin,
   Except.error PyExc.nameError)

/-- Embeds `handle_new_image` (src lines 699-738).  `files` is the set of
paths for which `os.path.isfile` holds; `diskFull` is the value of
`dfn.detect_disk_full()`; `imgfile` is the candidate path (`none` is the
not-found indicator coming from `get_latest_imagefile`, which never names an
existing file).  The returned value is the Python outcome: on the disk-full
path `return clean_up_no_dl(job_list)` passes along that call's value when
it returns and propagates its exception when it raises; the bare `return`s
yield `Except.ok none` (Python `None`).  In the jpg branch, the source nests
`if not 'thumb.jpg' in imgfile:` around `if clearing_quality == '2':`; the
two tests are flattened into one conjunction here. -/
def handle_new_image (d : DfnExt) (files : List String) (diskFull : Bool)
    (imgfile : Option String) (job_count : Nat) (config_dict : ConfigDict) :
    List Ev × Except PyExc (Option Bool) :=
  match imgfile with
  | some f =>
    if f ∈ files then
      if diskFull then
        ([Ev.logInfo "handle-image_starting",
          Ev.logCritical "disk-full_early-exit"]
           ++ (clean_up_no_dl job_count).1,
         match (clean_up_no_dl job_count).2 with
         | Except.ok b => Except.ok (some b)
         | Except.error e => Except.error e)
      else if containsSub f "cloudy_img" || containsSub f "clearing" then
        ([Ev.logInfo "handle-image_starting",
          Ev.logInfo "handle-image_cloudy_and_clearing",
          Ev.writeLastImage f config_dict.last_img_status_file,
          Ev.logInfo "latest_image"], Except.ok none)
      else
        let f2 := d.rename_RAW f
        if endsLowerJpg f2 then
          let mk := !(containsSub f2 "thumb.jpg")
                      && (config_dict.clearing_quality == "2")
          let f3 := if mk then d.make_thumb f2 else f2
          ([Ev.logInfo "handle-image_starting", Ev.logInfo "handle-image_jpg"]
            ++ (if mk then [Ev.makeThumb f2] else [])
            ++ [Ev.writeLastImage f3 config_dict.last_img_status_file,
                Ev.writeLastImage f3 "/tmp/latest_img.tmp",
                Ev.logInfo "latest_image"], Except.ok none)
        else
          ([Ev.logInfo "handle-image_starting",
            Ev.logInfo "making_thumb_for_cloudy",
            Ev.makeThumb f2, Ev.logInfo "latest_image"], Except.ok none)
    else
      ([Ev.logInfo "argh-imgfile_not_exist"], Except.ok none)
  | none =>
      ([Ev.logInfo "argh-imgfile_not_exist"], Except.ok none)

/-- Embeds the twilight foreground loops (src lines 441-443 and 560-562):
while the clock is before the twilight boundary, run `high_acq` and pass the
result to `handle_new_image`, discarding its return value exactly as the
source does; an exception raised inside the handler propagates (there is no
try/except around the loop body) and ends the loop, so the performed-event
trace stops there.  `handleCall` marks the call site.  `now` advances by
`step` seconds per iteration; `fuel` bounds the recursion. -/
def twilight_loop (fuel now bound step : Nat) (d : DfnExt)
    (dirAfter files : List String) (diskFull : Bool) (job_count : Nat)
    (config_dict : ConfigDict) : List Ev :=
  match fuel with
  | 0 => []
  | Nat.succ fuel =>
    if now < bound then
      let a := high_acq dirAfter (interval_time 0 config_dict)
      let h := handle_new_image d files diskFull a.2 job_count config_dict
      a.1 ++ [Ev.handleCall] ++ h.1 ++
        (match h.2 with
         | Except.error _ => []
         | Except.ok _ =>
             twilight_loop fuel (now + step) bound step d dirAfter files
               diskFull job_count config_dict)
    else []

/-- Result of one iteration of the Night loop body. -/
structure NightIter where
  trace : List Ev
  imgfile : Option String
  newInternal : Int
  deriving DecidableEq

/-- Embeds one iteration of the Night loop body (src lines 475-506).
`monitor` is the value read by `cc.read_cloud_status`; `internal` is
`cloud_status_internal` from the previous iteration (initially -3).  A test
run (`test_time != 0`) overwrites the read status with `CLEAR` before the
branch selection.  The `Gone_*` / `Still_*` logger lines appear in the trace
exactly as guarded in the source; note the CLOUDY branch logs
`Gone_cloudy` unconditionally.  The body never calls `handle_new_image`:
the acquisition result is only assigned to `imgfile`. -/
def night_iteration (dirAfter : List String) (test_time : Nat)
    (monitor internal : Int) (config_dict : ConfigDict) : NightIter :=
  let cloud_status : Int := if test_time ≠ 0 then CLEAR else monitor
  let pre : List Ev :=
    [Ev.logDebug "cloud_status"] ++
      (if test_time ≠ 0 then [Ev.logDebug "testing_force_clear"] else [])
  if cloud_status = CLEAR then
    let a := high_acq dirAfter (interval_time test_time config_dict)
    { trace := pre ++
        (if internal ≠ CLEAR then [Ev.logInfo "Gone_clear"] else []) ++ a.1,
      imgfile := a.2, newInternal := cloud_status }
  else if cloud_status = CLEARING then
    let a := low_acq dirAfter cloud_status config_dict
    { trace := pre ++
        (if internal ≠ CLEARING then [Ev.logInfo "Gone_clearing"] else [])
        ++ a.1,
      imgfile := a.2, newInternal := cloud_status }
  else if cloud_status = CLOUDY then
    let a := low_acq dirAfter cloud_status config_dict
    { trace := pre ++ [Ev.logInfo "Gone_cloudy"] ++ a.1,
      imgfile := a.2, newInternal := cloud_status }
  else
    let a := high_acq dirAfter (interval_time test_time config_dict)
    { trace := pre ++
        (if internal = CLEAR ∨ internal = CLEARING ∨ internal = CLOUDY
         then [Ev.logInfo "Gone_undefined_cloud_status"]
         else [Ev.logInfo "Still_undefined_cloud_status"]) ++ a.1,
      imgfile := a.2, newInternal := cloud_status }

/-- The four session phase boundaries, with the names the source gives them.
In the vocabulary of the spec: `sunset` is eveningStart,
`sunset_after_twilight` is eveningTwilightEnd, `sunrise_before_twilight` is
nightEnd = morningTwilightStart, and `sunrise` is morningEnd. -/
structure Sched where
  sunset : Int
  sunrise : Int
  sunset_after_twilight : Int
  sunrise_before_twilight : Int
  deriving DecidableEq

/-- Embeds the boundary computation in `main_function` (src lines 200-232,
repeated verbatim at 268-301 for the recompute on a fix improvement):
the raw sun times widened by `sun_leeway` minutes, the two 10-minute twilight
margins, the test-mode replacement of all four values
(`sunset = now + 30 s`, `sunrise = sunset + test_time`, both twilight
boundaries collapsed onto them), and finally the missed-sunset check
`if sunset >= sunrise: sunset = datetime.now() + 30 s` together with the
`late_start-forcing_immediate` log flag returned as the Bool.  The source
computes `sunset_after_twilight` before that final check and does not
recompute it afterwards; that ordering is kept. -/
def session_schedule (now rawSunset rawSunrise leewayMin : Int)
    (test_time : Nat) : Sched × Bool :=
  let sunset0 := rawSunset + leewayMin * 60
  let sunrise0 := rawSunrise - leewayMin * 60
  let sunset := if test_time ≠ 0 then now + 30 else sunset0
  let sunrise :=
    if test_time ≠ 0 then now + 30 + (test_time : Int) else sunrise0
  let sat := if test_time ≠ 0 then now + 30 else sunset0 + 600
  let sbt :=
    if test_time ≠ 0 then now + 30 + (test_time : Int) else sunrise0 - 600
  if sunset ≥ sunrise then
    ({ sunset := now + 30, sunrise := sunrise, sunset_after_twilight := sat,
       sunrise_before_twilight := sbt }, true)
  else
    ({ sunset := sunset, sunrise := sunrise, sunset_after_twilight := sat,
       sunrise_before_twilight := sbt }, false)

/-- Embeds the gate on the Evening and Morning Twilight blocks (src lines
406 and 527): the whole block, its foreground loop included, runs only when
`test_time == 0`.  `loopIters` is the number of iterations the loop performs
when the block does run. -/
def twilight_block_iterations (test_time : Nat) (loopIters : Nat) : Nat :=
  if test_time = 0 then loopIters else 0

/-- The Night loop condition (src line 475):
`while datetime.datetime.now() < sunrise_before_twilight`. -/
def night_loop_active (t : Int) (s : Sched) : Bool :=
  decide (t < s.sunrise_before_twilight)

/-- State of the tethered-capture child process as seen through its handle:
still running, exited but not yet reaped, or reaped (a previous `wait`
or `poll` collected its exit status, so its pid is gone). -/
inductive ProcState where
  | running
  | exitedUnreaped
  | reaped
  deriving DecidableEq

/-- CPython 2.7 `Popen.poll` (the interpreter named by the src shebang and
requirements): calls `waitpid(WNOHANG)`, so an exited child is reaped and its
return code recorded; the result is `none` only while the child still runs. -/
def popen_poll : ProcState → ProcState × Option Int
  | ProcState.running => (ProcState.running, none)
  | ProcState.exitedUnreaped => (ProcState.reaped, some 0)
  | ProcState.reaped => (ProcState.reaped, some 0)

/-- CPython 2.7 `Popen.send_signal`, used by both `terminate` and `kill`:
it is a bare `os.kill(self.pid, sig)` with no exited-process guard.  Once the
child has been reaped its pid no longer exists and `os.kill` raises
`OSError` (ESRCH); signalling a running or zombie (exited, unreaped)
process succeeds. -/
def popen_send_signal : ProcState → Except PyExc ProcState
  | ProcState.reaped => Except.error PyExc.osError
  | s => Except.ok s

/-- Embeds the tether teardown after the Night loop (src lines 508-524):
`time.sleep(5)`, a poll with a `Tether_killed`/`Tether_not_killed` debug
line, `tether.terminate()`, `tether.kill()`, and one more poll-and-log.
An exception from either signal propagates (there is no try/except). -/
def tether_teardown (p : ProcState) : Except PyExc (List Ev × ProcState) :=
  let q := popen_poll p
  let ev1 := if q.2 = none then Ev.logDebug "Tether_not_killed"
             else Ev.logDebug "Tether_killed"
  match popen_send_signal q.1 with
  | Except.error e => Except.error e
  | Except.ok p2 =>
    match popen_send_signal p2 with
    | Except.error e => Except.error e
    | Except.ok p3 =>
      let q3 := popen_poll p3
      let ev2 := if q3.2 = none then Ev.logDebug "Tether_not_killed"
                 else Ev.logDebug "Tether_killed"
      Except.ok ([Ev.sleep 5, ev1, Ev.terminateSig, Ev.killSig, ev2], q3.1)

/-- Embeds the twilight tether launch blocks (src lines 425-439 and 543-558):
`subprocess.Popen([...])` inside `try/except subprocess.CalledProcessError`,
whose handler logs and runs `gphoto2 --reset`.  `outcome` is how the launch
behaves: `none` for success, otherwise the exception the launch raises.
An exception not matching the except clause propagates to the caller. -/
def twilight_tether_start (outcome : Option PyExc) : Except PyExc (List Ev) :=
  match outcome with
  | none => Except.ok [Ev.popenTether, Ev.logInfo "twilight_tether_starting"]
  | some PyExc.calledProcessError =>
      Except.ok [Ev.logWarning "argh-problem_starting_tether",
                 Ev.gphotoReset, Ev.logInfo "gphoto_reset"]
  | some e => Except.error e

/-- CPython semantics: `subprocess.Popen` signals a launch failure (missing
or unexecutable binary) by raising `OSError`; `CalledProcessError` is raised
only by `check_call`/`check_output`, never by `Popen`.  This is therefore the
outcome realised when the capture backend fails to start. -/
def popen_launch_failure : Option PyExc := some PyExc.osError

/-- Number of occurrences of an event in a trace. -/
def countEv (e : Ev) (t : List Ev) : Nat :=
  (t.filter (fun x => decide (x = e))).length

/-- Recogniser for `dfn.write_last_image_file` calls. -/
def isWriteLastImage : Ev → Bool
  | Ev.writeLastImage _ _ => true
  | _ => false

/-- A concrete configuration used for evaluating the embedding. -/
def cfg0 : ConfigDict :=
  { time_checking_clear := 2, time_checking_cloudy := 3,
    time_checking_clearing := 4, clearing_quality := "2",
    last_img_status_file := "latest_img" }

/-- A concrete instantiation of the external helpers used for evaluating the
embedding: renaming keeps the path, thumbnailing appends the thumb suffix. -/
def dEx : DfnExt :=
  { rename_RAW := fun s => s, make_thumb := fun s => s ++ ".thumb.jpg" }

/-- A nonempty directory listing has a latest file. -/
theorem getLast?_none_iff (l : List String) : l.getLast? = none ↔ l = [] := by
  cases l with
  | nil => simp
  | cons a t => simp [List.getLast?]

/-- C5: the claim states that after the Night loop the teardown polls the
subprocess, sends terminate, then unconditionally kill, and that the sequence
raises no error against a handle whose process has already exited.  Refuted:
against an already-exited handle the initial poll reaps the child and, under
the CPython 2.7 semantics of `send_signal`, the terminate raises `OSError`. -/
theorem C5_teardown_exited_raises_cex :
    tether_teardown ProcState.exitedUnreaped = Except.error PyExc.osError :=
  rfl

/-- C5 (amended): the teardown polls the subprocess, sends terminate and,
when terminate does not raise, unconditionally also kill — on a still-running
handle both signals are sent with no condition between them and nothing is
raised; but against a handle whose process has already exited (reaped by the
poll, or reaped earlier) the terminate raises `OSError`, the kill is not
reached, and the error propagates. -/
theorem C5_teardown_amended :
    tether_teardown ProcState.running =
      Except.ok ([Ev.sleep 5, Ev.logDebug "Tether_not_killed",
                  Ev.terminateSig, Ev.killSig,
                  Ev.logDebug "Tether_not_killed"], ProcState.running) ∧
    tether_teardown ProcState.exitedUnreaped = Except.error PyExc.osError ∧
    tether_teardown ProcState.reaped = Except.error PyExc.osError :=
  ⟨rfl, rfl, rfl⟩

/-- C6: the claim states that a tethered-capture launch failure during a
twilight phase is caught, a backend reset is issued, and the session
proceeds.  Evaluated at the failing input: a real `Popen` launch failure
raises `OSError`, which the except clause (written for
`CalledProcessError`, an exception `Popen` never raises) does not match, so
the error propagates and terminates the session with no reset.  The second
conjunct shows the handler that the source aimed at the phantom exception:
had `CalledProcessError` been raisable there, it would log, reset and
continue. -/
theorem C6_tether_launch_eval :
    twilight_tether_start popen_launch_failure = Except.error PyExc.osError ∧
    twilight_tether_start (some PyExc.calledProcessError) =
      Except.ok [Ev.logWarning "argh-problem_starting_tether",
                 Ev.gphotoReset, Ev.logInfo "gphoto_reset"] :=
  ⟨rfl, rfl⟩

/-- C8: for every interval, interval 0 included, `high_acq` holds the
shutter trigger active for the interval and releases it, then performs a
rename pass and a thumbnail pass, and returns the most recently created
file, the not-found indicator (`none`) exactly when no file exists — the
function is total, so no error is raised for an empty iteration. -/
theorem C8_high_acq_contract (dirAfter : List String) (t : Nat) :
    (high_acq dirAfter t).1 =
      [Ev.logInfo "starting_high_acq_chunk", Ev.shutterOn, Ev.sleep t,
       Ev.shutterOff, Ev.renameAllPass, Ev.thumbAllPass, Ev.getLatest] ∧
    (high_acq dirAfter t).2 = dirAfter.getLast? ∧
    ((high_acq dirAfter t).2 = none ↔ dirAfter = []) := by
  refine ⟨rfl, rfl, ?_⟩
  simp only [high_acq, get_latest_imagefile]
  exact getLast?_none_iff dirAfter

/-- C9: for a test run with `test_time = 240`, the schedule is sunset =
now + 30 s and sunrise = sunset + 240 s with both twilight windows of zero
width (`sunset_after_twilight = sunset` and
`sunrise_before_twilight = sunrise`), the late-start fallback does not fire,
the evening and morning twilight blocks (hence their loops) perform zero
iterations, and the Night loop condition covers exactly the full 240-second
window after sunset. -/
theorem C9_test_schedule (now rs rr lw : Int) (k : Nat) (t : Int) :
    (session_schedule now rs rr lw 240).1.sunset = now + 30 ∧
    (session_schedule now rs rr lw 240).1.sunrise =
      (session_schedule now rs rr lw 240).1.sunset + 240 ∧
    (session_schedule now rs rr lw 240).1.sunset_after_twilight =
      (session_schedule now rs rr lw 240).1.sunset ∧
    (session_schedule now rs rr lw 240).1.sunrise_before_twilight =
      (session_schedule now rs rr lw 240).1.sunrise ∧
    (session_schedule now rs rr lw 240).2 = false ∧
    twilight_block_iterations 240 k = 0 ∧
    (session_schedule now rs rr lw 240).1.sunrise_before_twilight -
      (session_schedule now rs rr lw 240).1.sunset = 240 ∧
    (night_loop_active t (session_schedule now rs rr lw 240).1 = true ↔
      t < (session_schedule now rs rr lw 240).1.sunset + 240) := by
  have hlt : ¬ (now + 30 + ((240 : Nat) : Int) ≤ now + 30) := by
    push_cast
    omega
  simp [session_schedule, hlt, twilight_block_iterations, night_loop_active]

/-- C10: in every test run (`test_time` nonzero), each Night-loop iteration
overwrites the cloud status read from the monitor with CLEAR before the
branch selection, so the low-rate procedure is never invoked (no
`single_image` exposure in the trace), the high-rate branch runs (the
shutter interval trigger is in the trace) regardless of the monitor reading,
and the recorded status becomes CLEAR. -/
theorem C10_test_forces_clear (dirAfter : List String) (test_time : Nat)
    (monitor internal : Int) (cfg : ConfigDict) (h : test_time ≠ 0) :
    Ev.singleImage ∉
      (night_iteration dirAfter test_time monitor internal cfg).trace ∧
    Ev.shutterOn ∈
      (night_iteration dirAfter test_time monitor internal cfg).trace ∧
    (night_iteration dirAfter test_time monitor internal cfg).newInternal
      = CLEAR := by
  have ht : (night_iteration dirAfter test_time monitor internal cfg).trace =
      [Ev.logDebug "cloud_status", Ev.logDebug "testing_force_clear"] ++
      (if internal ≠ CLEAR then [Ev.logInfo "Gone_clear"] else []) ++
      [Ev.logInfo "starting_high_acq_chunk", Ev.shutterOn, Ev.sleep 180,
       Ev.shutterOff, Ev.renameAllPass, Ev.thumbAllPass, Ev.getLatest] := by
    simp [night_iteration, h, high_acq, interval_time]
  refine ⟨?_, ?_, ?_⟩
  · rw [ht]
    by_cases hi : internal = CLEAR <;> simp [hi]
  · rw [ht]
    simp
  · simp [night_iteration, h]

/-- C10 witness: a concrete test run, monitor reading CLOUDY. -/
theorem C10_test_forces_clear_witness :
    (240 : Nat) ≠ 0 ∧
    (Ev.singleImage ∉ (night_iteration [] 240 CLOUDY CLOUDY cfg0).trace ∧
     Ev.shutterOn ∈ (night_iteration [] 240 CLOUDY CLOUDY cfg0).trace ∧
     (night_iteration [] 240 CLOUDY CLOUDY cfg0).newInternal = CLEAR) :=
  ⟨by decide, C10_test_forces_clear [] 240 CLOUDY CLOUDY cfg0 (by decide)⟩

/-- Filtering the optional thumbnail event keeps no pointer writes. -/
theorem filter_write_thumb_ite (b : Bool) (f2 : String) :
    (if b then [Ev.makeThumb f2] else []).filter isWriteLastImage = [] := by
  cases b <;> rfl

/-- C1: evaluation of the disk-full path at the failing input.  The fault
shutdown disables the shutter trigger, the condensation fan and the camera
exactly once each, but then `ser.close()` raises `NameError` (the module
global `ser` is never bound): the hardware channel is never closed, no
failure indicator reaches the caller — `handle_new_image` ends in the
propagating exception — and the enclosing acquisition loop (two iterations
of wall time remaining, disk full) aborts with it, performing exactly one
shutter trigger and never a channel close. -/
theorem C1_disk_full_run :
    countEv Ev.shutterOff (clean_up_no_dl 0).1 = 1 ∧
    countEv Ev.condOff (clean_up_no_dl 0).1 = 1 ∧
    countEv Ev.cameraOff (clean_up_no_dl 0).1 = 1 ∧
    (clean_up_no_dl 0).2 = Except.error PyExc.nameError ∧
    Ev.serClose ∉ (clean_up_no_dl 0).1 ∧
    (handle_new_image dEx ["a.nef"] true (some "a.nef") 0 cfg0).2
      = Except.error PyExc.nameError ∧
    countEv Ev.shutterOn
      (twilight_loop 2 0 2 1 dEx ["a.nef"] ["a.nef"] true 0 cfg0) = 1 ∧
    Ev.serClose ∉ twilight_loop 2 0 2 1 dEx ["a.nef"] ["a.nef"] true 0 cfg0
    := by
  decide

/-- C2 counterexample: a concrete Night iteration (status CLEAR, initial
internal status -3) obtains an image reference from the high-rate procedure,
yet its trace contains no call of the image-handling procedure — refuting
the claim that every Night iteration calls it on the returned reference. -/
theorem C2_night_iteration_no_handling_cex :
    Ev.handleCall ∉ (night_iteration ["a.nef"] 0 CLEAR (-3) cfg0).trace ∧
    (night_iteration ["a.nef"] 0 CLEAR (-3) cfg0).imgfile = some "a.nef" := by
  decide

/-- C2 (amended): during the Night phase no iteration of the loop body calls
the image-handling procedure — the acquisition result is only assigned —
whereas every twilight-loop iteration does call it on the acquisition
result. -/
theorem C2_image_handling_sites (dirAfter : List String) (test_time : Nat)
    (monitor internal : Int) (cfg : ConfigDict) (d : DfnExt)
    (files : List String) (diskFull : Bool) (jc : Nat) :
    Ev.handleCall ∉
      (night_iteration dirAfter test_time monitor internal cfg).trace ∧
    Ev.handleCall ∈ twilight_loop 1 0 1 1 d dirAfter files diskFull jc cfg := by
  constructor
  · simp only [night_iteration]
    split_ifs <;> simp [high_acq, low_acq]
  · simp [twilight_loop, high_acq]

/-- C3: evaluation of the Night dispatch.  Branch selection is as claimed:
CLEAR gives high-rate, CLEARING and CLOUDY give low-rate with their own
configured sleep durations and exactly one exposure, an undefined status (7)
gives high-rate; and an unchanged CLEAR iteration emits no transition line.
The last conjunct is the failing input: an unchanged CLOUDY iteration still
emits the `Gone_cloudy` transition line, because the source logs it
unconditionally. -/
theorem C3_cloud_dispatch_eval :
    (Ev.shutterOn ∈ (night_iteration [] 0 CLEAR (-3) cfg0).trace ∧
     Ev.singleImage ∉ (night_iteration [] 0 CLEAR (-3) cfg0).trace ∧
     Ev.logInfo "Gone_clear" ∈ (night_iteration [] 0 CLEAR (-3) cfg0).trace) ∧
    (countEv Ev.singleImage
        (night_iteration [] 0 CLEARING CLEAR cfg0).trace = 1 ∧
     Ev.sleep cfg0.time_checking_clearing ∈
        (night_iteration [] 0 CLEARING CLEAR cfg0).trace ∧
     Ev.logInfo "Gone_clearing" ∈
        (night_iteration [] 0 CLEARING CLEAR cfg0).trace) ∧
    (countEv Ev.singleImage
        (night_iteration [] 0 CLOUDY CLEARING cfg0).trace = 1 ∧
     Ev.sleep cfg0.time_checking_cloudy ∈
        (night_iteration [] 0 CLOUDY CLEARING cfg0).trace) ∧
    (Ev.shutterOn ∈ (night_iteration [] 0 7 CLOUDY cfg0).trace ∧
     Ev.singleImage ∉ (night_iteration [] 0 7 CLOUDY cfg0).trace) ∧
    Ev.logInfo "Gone_clear" ∉ (night_iteration [] 0 CLEAR CLEAR cfg0).trace ∧
    Ev.logInfo "Gone_cloudy" ∈ (night_iteration [] 0 CLOUDY CLOUDY cfg0).trace
    := by
  decide

/-- C4 counterexample: with now = 0, raw sunset 1000, raw sunrise 1300 and
zero leeway, the computed boundaries have eveningStart (1000) at or past
morningTwilightStart (700), yet no fallback fires (no log, eveningStart is
not now + 30), and the ordering eveningTwilightEnd ≤ morningTwilightStart
claimed for the non-override case fails (1600 > 700) — the source only
checks `sunset >= sunrise`. -/
theorem C4_boundary_invariant_cex :
    (session_schedule 0 1000 1300 0 0).1.sunrise_before_twilight ≤
      (session_schedule 0 1000 1300 0 0).1.sunset ∧
    (session_schedule 0 1000 1300 0 0).2 = false ∧
    (session_schedule 0 1000 1300 0 0).1.sunset = 1000 ∧
    ¬ ((session_schedule 0 1000 1300 0 0).1.sunset_after_twilight ≤
       (session_schedule 0 1000 1300 0 0).1.sunrise_before_twilight) := by
  decide

/-- C4 (amended): the fallback fires exactly when computed eveningStart ≥
morningEnd (`sunset >= sunrise`), and then overrides eveningStart to
now + 30 s with the distinct log; when it does not fire, the boundaries
satisfy eveningStart < eveningTwilightEnd and
morningTwilightStart < morningEnd, and eveningTwilightEnd ≤
morningTwilightStart holds exactly when eveningStart + 20 min ≤
morningEnd. -/
theorem C4_boundary_override_amended (now rs rr lw : Int)
    (h : rs + lw * 60 < rr - lw * 60) :
    (session_schedule now rs rr lw 0).2 = false ∧
    (session_schedule now rs rr lw 0).1.sunset = rs + lw * 60 ∧
    (session_schedule now rs rr lw 0).1.sunset <
      (session_schedule now rs rr lw 0).1.sunset_after_twilight ∧
    (session_schedule now rs rr lw 0).1.sunrise_before_twilight <
      (session_schedule now rs rr lw 0).1.sunrise ∧
    ((session_schedule now rs rr lw 0).1.sunset_after_twilight ≤
        (session_schedule now rs rr lw 0).1.sunrise_before_twilight ↔
      (session_schedule now rs rr lw 0).1.sunset + 1200 ≤
        (session_schedule now rs rr lw 0).1.sunrise) ∧
    (∀ a b : Int,
      ((session_schedule now a b lw 0).2 = true ↔
        b - lw * 60 ≤ a + lw * 60)) ∧
    (∀ a b : Int,
      (session_schedule now a b lw 0).1.sunset =
        if b - lw * 60 ≤ a + lw * 60 then now + 30 else a + lw * 60) := by
  have hlt : ¬ (rr - lw * 60 ≤ rs + lw * 60) := by omega
  have hss : session_schedule now rs rr lw 0 =
      ({ sunset := rs + lw * 60, sunrise := rr - lw * 60,
         sunset_after_twilight := rs + lw * 60 + 600,
         sunrise_before_twilight := rr - lw * 60 - 600 }, false) := by
    simp [session_schedule, hlt]
  rw [hss]
  refine ⟨rfl, rfl, ?_, ?_, ?_, ?_, ?_⟩
  · show rs + lw * 60 < rs + lw * 60 + 600
    omega
  · show rr - lw * 60 - 600 < rr - lw * 60
    omega
  · show rs + lw * 60 + 600 ≤ rr - lw * 60 - 600 ↔
      rs + lw * 60 + 1200 ≤ rr - lw * 60
    omega
  · intro a b
    by_cases hab : b - lw * 60 ≤ a + lw * 60 <;> simp [session_schedule, hab]
  · intro a b
    by_cases hab : b - lw * 60 ≤ a + lw * 60 <;> simp [session_schedule, hab]

/-- C4 witness: a normal schedule, raw sunset 0, raw sunrise 86400. -/
theorem C4_boundary_override_amended_witness :
    (0 : Int) + 0 * 60 < 86400 - 0 * 60 ∧
    (session_schedule 0 0 86400 0 0).2 = false :=
  ⟨by norm_num, (C4_boundary_override_amended 0 0 86400 0 (by norm_num)).1⟩

/-- C7 counterexample: an existing non-cloud-marker image whose renamed
result is a raw file (`a.nef`, renaming kept the path): the handling trace
contains no write of the last-image pointer, refuting the claim that the
pointer is updated for every such image. -/
theorem C7_raw_pointer_cex :
    "a.nef" ∈ ["a.nef"] ∧
    containsSub "a.nef" "cloudy_img" = false ∧
    containsSub "a.nef" "clearing" = false ∧
    (handle_new_image dEx ["a.nef"] false (some "a.nef") 0 cfg0).1.filter
      isWriteLastImage = [] := by
  decide

/-- C7 (amended): for an existing non-cloud-marker input image (disk not
full), the last-image pointer is written exactly when the renamed result
ends in `.jpg` (then twice: the status pointer and the `/tmp` test copy);
when the result is a raw format, no pointer write happens (only a thumbnail
is made).  A missing input path is logged and returned without error. -/
theorem C7_pointer_amended (d : DfnExt) (files : List String) (f : String)
    (jc : Nat) (cfg : ConfigDict) (hf : f ∈ files)
    (hm : containsSub f "cloudy_img" = false)
    (hm2 : containsSub f "clearing" = false) :
    ((handle_new_image d files false (some f) jc cfg).1.filter
        isWriteLastImage).length =
      (if endsLowerJpg (d.rename_RAW f) then 2 else 0) ∧
    handle_new_image d files false none jc cfg =
      ([Ev.logInfo "argh-imgfile_not_exist"], Except.ok none) := by
  refine ⟨?_, rfl⟩
  simp only [handle_new_image, if_pos hf, hm, hm2, Bool.or_self,
    Bool.false_eq_true, if_false]
  split <;>
    simp [isWriteLastImage, List.filter_append, filter_write_thumb_ite]
  all_goals intros
  all_goals subst_vars
  all_goals rfl

/-- C7 witness: the raw-file instance of the amended claim. -/
theorem C7_pointer_amended_witness :
    ("a.nef" ∈ ["a.nef"] ∧ containsSub "a.nef" "cloudy_img" = false ∧
      containsSub "a.nef" "clearing" = false) ∧
    (((handle_new_image dEx ["a.nef"] false (some "a.nef") 0 cfg0).1.filter
        isWriteLastImage).length =
      (if endsLowerJpg (dEx.rename_RAW "a.nef") then 2 else 0) ∧
     handle_new_image dEx ["a.nef"] false none 0 cfg0 =
       ([Ev.logInfo "argh-imgfile_not_exist"], Except.ok none)) :=
  ⟨⟨by decide, by decide, by decide⟩,
   C7_pointer_amended dEx ["a.nef"] "a.nef" 0 cfg0 (by decide) (by decide)
     (by decide)⟩

end DFN
